import Mathlib

/-!
A shallow embedding of the sacar rollout system (kolonialno/sacar) in Lean 4,
covering the coordination-store watch client (`src/sacar/consul.py`), the
token caches (`src/sacar/gcp.py`, `src/sacar/github.py`), the master
orchestration tasks and the slave provisioning pipeline
(`src/sacar/tasks.py`), the lock primitive (`src/sacar/utils.py`) and the
tarball-ready webhook handler (`src/sacar/handlers.py`).

External effects (HTTP calls, the clock, the filesystem, subprocess
invocations) are modelled by explicit parameters and returned traces:
fallible external calls become injectable outcomes, and each function
returns the list of externally visible actions it performed together with
its result.
-/

namespace Sacar

/-! ## Data model (src/sacar/types.py) -/

/-- Source `types.SlaveVersionState`: per-host completion record written to Consul. -/
structure SlaveVersionState where
  done : Bool
  success : Option Bool := none
  message : Option String := none
deriving DecidableEq, Repr

/-- Source `types.VersionState`: per-(repo, commit) rollout state kept in Consul. -/
structure VersionState where
  run_id : Nat
  installation_id : Nat
  status : String
  tarball_path : Option String := none
  deployment_id : Option Nat := none
deriving DecidableEq, Repr

/-- Source `types.CheckStatus` enum. -/
inductive CheckStatus where
  | queued
  | in_progress
  | completed
deriving DecidableEq, Repr

/-- Source `types.CheckConclusion` enum. -/
inductive CheckConclusion where
  | success
  | failure
  | neutral
  | cancelled
  | timed_out
  | action_required
deriving DecidableEq, Repr

/-- The fields of a check-run payload that the claims are about: the status,
the `output.summary`, the optional `output.text` and the optional
`conclusion` sent to the GitHub check-run API. -/
structure CheckRunReport where
  status : CheckStatus
  summary : String
  text : Option String := none
  conclusion : Option CheckConclusion := none
deriving DecidableEq, Repr

/-- Source `types.TarballReadyEvent`: the internal webhook payload. -/
structure TarballReadyEvent where
  repo_name : String
  sha : String
  ref : String
  tarball_path : String
deriving DecidableEq, Repr

/-- Source `types.TarballReadyEvent.branch`: when `ref` starts with
`refs/heads/`, the first 11 characters (`ref[11:]`) are stripped, otherwise
`ref` is returned unchanged.  Python string operations are modelled on the
character sequence. -/
def TarballReadyEvent.branch (e : TarballReadyEvent) : String :=
  if "refs/heads/".data.isPrefixOf e.ref.data then String.mk (e.ref.data.drop 11)
  else e.ref

/-! ## Coordination-store watch client (src/sacar/consul.py)

`Client.wait` and `Client.wait_recursive` loop on `get` / `get_recursive`,
starting from index 1.  Each loop iteration performs one HTTP blocking query;
we model the store's answer to each query as a `WatchResponse`: either a
successful read carrying the new `X-Consul-Index` and the decoded value, or
an HTTP error with a status code, whose response headers also carry the
current `X-Consul-Index`. -/

/-- One answer of the Consul KV store to a blocking query. -/
inductive WatchResponse (T : Type) where
  | ok (index : Nat) (value : T)
  | httpError (status : Nat) (consulIndex : Nat)
deriving DecidableEq, Repr

/-- The externally visible trace of a watch loop run against a finite list of
store responses: the `index` query parameter passed to each issued `get`
call, the values yielded to the caller, and the status code of a propagated
HTTP error, if the loop aborted. -/
structure WatchTrace (T : Type) where
  requests : List Nat
  yields : List T
  raised : Option Nat
deriving DecidableEq, Repr

/-- The watch loop body shared by `Client.wait` and `Client.wait_recursive`:
on a successful read, remember the returned index and yield the value; on an
HTTP error with status 404, set the index to the `X-Consul-Index` header of
the error response and continue without yielding; on any other HTTP error,
re-raise. -/
def waitFrom {T : Type} (index : Nat) : List (WatchResponse T) → WatchTrace T
  | [] => ⟨[], [], none⟩
  | r :: rest =>
    match r with
    | .ok i v =>
      let t := waitFrom i rest
      ⟨index :: t.requests, v :: t.yields, t.raised⟩
    | .httpError status consulIndex =>
      if status = 404 then
        let t := waitFrom consulIndex rest
        ⟨index :: t.requests, t.yields, t.raised⟩
      else ⟨[index], [], some status⟩

namespace Client

/-- Source `consul.Client.wait`: single-key watch, starting from index 1. -/
def wait {T : Type} (responses : List (WatchResponse T)) : WatchTrace T :=
  waitFrom 1 responses

/-- Source `consul.Client.wait_recursive`: recursive watch over a prefix, starting
from index 1; each successful read decodes a list of values. -/
def wait_recursive {T : Type} (responses : List (WatchResponse (List T))) :
    WatchTrace (List T) :=
  waitFrom 1 responses

end Client

/-! ## Token caches (src/sacar/gcp.py and src/sacar/github.py)

Both caches map a scope key to a `(token, expiry)` pair; we model the entry
for the requested key as an `Option (String × Nat)` (absent keys give
`(None, None)` via `dict.get`), the current time as a `Nat` of seconds, and
the external token mint as an injected `(token, expiry)` pair.  The missing
`utils.now` helper (referenced by `github._get_auth_token` but absent from
the sources) is represented by the same current-time parameter. -/

/-- Result of a token-cache lookup: the returned token, the cache entry
afterwards, and whether a fresh token was requested from the provider. -/
structure TokenCacheResult where
  token : String
  cache : Option (String × Nat)
  requested : Bool
deriving DecidableEq, Repr

/-- Source `gcp.get_auth_token`: returns the cached token when
`token and expires_at and expires_at > time.time() + 30` (Python truthiness:
a `None` or empty token string and a `None` or zero expiry are falsy);
otherwise requests a fresh token, stores it, and returns it. -/
def gcp_get_auth_token (cache : Option (String × Nat)) (now : Nat)
    (fresh : String × Nat) : TokenCacheResult :=
  match cache with
  | some (token, expires_at) =>
    if token ≠ "" ∧ expires_at ≠ 0 ∧ expires_at > now + 30 then
      ⟨token, cache, false⟩
    else
      ⟨fresh.1, some fresh, true⟩
  | none => ⟨fresh.1, some fresh, true⟩

/-- Source `github._get_auth_token`: returns the cached token when
`token and expiry and expiry > utils.now() + timedelta(seconds=30)` (the
expiry is a `datetime`, which is always truthy; a `None` or empty token
string is falsy); otherwise requests a fresh token, stores it, returns it. -/
def github_get_auth_token (cache : Option (String × Nat)) (now : Nat)
    (fresh : String × Nat) : TokenCacheResult :=
  match cache with
  | some (token, expiry) =>
    if token ≠ "" ∧ expiry > now + 30 then
      ⟨token, cache, false⟩
    else
      ⟨fresh.1, some fresh, true⟩
  | none => ⟨fresh.1, some fresh, true⟩

/-! ## Lock primitive (src/sacar/utils.py) and local filesystem state

The pipeline touches two files under the target directory: the lock file
`prepare.pid` (whose content is the creating process id) and the marker file
`prepare.done`.  `FS` models exactly those two. -/

/-- The target directory's relevant filesystem state: `lock` is the content
of `prepare.pid` when that file exists, `doneExists` whether `prepare.done`
exists. -/
structure FS where
  lock : Option String
  doneExists : Bool
deriving DecidableEq, Repr

/-- Source `utils.create_lock_file`: `open(path, "x")` — atomically create the file
with the given content, failing (returning `False`, leaving the filesystem
unchanged) iff the file already exists. -/
def create_lock_file (fs : FS) (content : String) : Bool × FS :=
  match fs.lock with
  | some _ => (false, fs)
  | none => (true, { fs with lock := some content })

/-! ## Slave provisioning pipeline (src/sacar/tasks.py) -/

/-- Source `settings.PYTHON_37_PATH` (default value from src/sacar/settings.py). -/
def PYTHON_37_PATH : String := "python3.7"

/-- Python `str.strip()`: remove leading and trailing whitespace, modelled
on the character sequence. -/
def pyStrip (s : String) : String :=
  String.mk (((s.data.dropWhile Char.isWhitespace).reverse.dropWhile
    Char.isWhitespace).reverse)

/-- Source `tasks._get_python_path`: reads `python-version`, strips it, and maps
`"3.7"` to the configured interpreter path; any other content is
unsupported. -/
def «_get_python_path» (pythonVersionContent : String) : Option String :=
  if pyStrip pythonVersionContent = "3.7" then some PYTHON_37_PATH else none

/-- The externally visible actions of one `_prepare` run. -/
inductive Step where
  | mkdir
  | createLock
  | unlinkLock
  | download
  | extract
  | createVenv
  | installDeps
  | runHook
  | writeDone
deriving DecidableEq, Repr

/-- Injected outcomes of the external calls `_prepare` makes: the local
process id written into the lock file, whether the tarball download
succeeds, whether `tar xf` succeeds, whether the extracted tree contains a
`python-version` file and its content, whether venv creation, dependency
installation and the optional `bin/prepare` hook succeed, and whether the
hook script exists. -/
structure PrepareEnv where
  pid : String
  downloadOk : Bool
  extractOk : Bool
  pythonVersionExists : Bool
  pythonVersionContent : String
  venvOk : Bool
  installOk : Bool
  hookExists : Bool
  hookOk : Bool
deriving DecidableEq, Repr

/-- Result of a `_prepare` run: the `(success, message)` pair it returns,
the final filesystem state of the target directory, and the actions it
performed, in order. -/
structure PrepareOutcome where
  result : Bool × String
  fs : FS
  steps : List Step
deriving DecidableEq, Repr

/-- Source `tasks._prepare`: the slave provisioning pipeline.  Mirrors the source's
short-circuit structure: mkdir; fail-if-exists lock creation (content = the
process id); `prepare.done` short-circuit (unlink lock, report already
prepared); download (unlinking the lock on failure); extract; the
`python-version` checks; venv creation; dependency installation; the
optional `bin/prepare` hook; then write `prepare.done`, unlink the lock and
report success. -/
def «_prepare» (env : PrepareEnv) (fs0 : FS) (target : String) : PrepareOutcome :=
  -- target_path.mkdir(parents=True, exist_ok=True)
  let acquired := create_lock_file fs0 env.pid
  if acquired.1 = false then
    ⟨(false, "Someone is already preparing \"" ++ target ++ "\""), acquired.2,
      [Step.mkdir]⟩
  else
    let fs := acquired.2
    if fs.doneExists then
      ⟨(true, "\"" ++ target ++ "\" is already prepared"), { fs with lock := none },
        [Step.mkdir, Step.createLock, Step.unlinkLock]⟩
    else if env.downloadOk = false then
      ⟨(false, "Failed to download tar"), { fs with lock := none },
        [Step.mkdir, Step.createLock, Step.download, Step.unlinkLock]⟩
    else if env.extractOk = false then
      ⟨(false, "Failed to extract tar"), fs,
        [Step.mkdir, Step.createLock, Step.download, Step.extract]⟩
    else if env.pythonVersionExists = false then
      ⟨(false, "Missing python-version from tarball"), fs,
        [Step.mkdir, Step.createLock, Step.download, Step.extract]⟩
    else
      match «_get_python_path» env.pythonVersionContent with
      | none =>
        ⟨(false, "Unsupported python version"), fs,
          [Step.mkdir, Step.createLock, Step.download, Step.extract]⟩
      | some _python =>
        if env.venvOk = false then
          ⟨(false, "Failed to create venv"), fs,
            [Step.mkdir, Step.createLock, Step.download, Step.extract,
              Step.createVenv]⟩
        else if env.installOk = false then
          ⟨(false, "Failed to install dependencies"), fs,
            [Step.mkdir, Step.createLock, Step.download, Step.extract,
              Step.createVenv, Step.installDeps]⟩
        else if env.hookExists && !env.hookOk then
          ⟨(false, "Failed to run bootstrap script"), fs,
            [Step.mkdir, Step.createLock, Step.download, Step.extract,
              Step.createVenv, Step.installDeps, Step.runHook]⟩
        else
          ⟨(true, "Prepared and ready for deployment"),
            { fs with doneExists := true, lock := none },
            [Step.mkdir, Step.createLock, Step.download, Step.extract,
              Step.createVenv, Step.installDeps] ++
              (if env.hookExists then [Step.runHook] else []) ++
              [Step.writeDone, Step.unlinkLock]⟩

/-! ## Slave task `prepare_host` (src/sacar/tasks.py) -/

/-- One Consul KV write of a `SlaveVersionState`. -/
structure SlavePut where
  key : String
  value : SlaveVersionState
deriving DecidableEq, Repr

/-- Source `tasks.prepare_host`: writes `SlaveVersionState(done=False)` under
`repo_name/sha/HOSTNAME`, runs `_prepare` (whose outcome — a
`(success, message)` pair, or a raised exception with its message — is
injected), converts an exception to `success = False, message = str(e)`,
and finally writes `SlaveVersionState(done=True, success, message)` under
the same key.  Returns the list of Consul writes, in order. -/
def prepare_host (repo_name sha hostname : String)
    (prepareOutcome : Except String (Bool × String)) : List SlavePut :=
  let key := repo_name ++ "/" ++ sha ++ "/" ++ hostname
  let final : SlaveVersionState :=
    match prepareOutcome with
    | .ok (success, message) =>
      { done := true, success := some success, message := some message }
    | .error e => { done := true, success := some false, message := some e }
  [⟨key, { done := false }⟩, ⟨key, final⟩]

/-! ## Master task `prepare_hosts` (src/sacar/tasks.py) -/

/-- The exception raised by `asyncio.gather` over the slave notifications:
the first failing notification's error, if any failed. -/
def gatherFirstError : List (Except String Unit) → Option String
  | [] => none
  | .error e :: _ => some e
  | .ok _ :: rest => gatherFirstError rest

/-- Source `tasks.prepare_hosts`: discovers the slaves (one injected
notification outcome per discovered slave), notifies them all via
`asyncio.gather` — if any notification fails the exception propagates and
nothing further happens — then sets `state.status = "preparing"`, writes the
state to Consul under `repo_name/sha`, and returns the number of slaves.
The result is either the propagated error, or the list of Consul
`VersionState` writes together with the slave count. -/
def prepare_hosts (payload : TarballReadyEvent) (state : VersionState)
    (notifyResults : List (Except String Unit)) :
    Except String (List (String × VersionState) × Nat) :=
  match gatherFirstError notifyResults with
  | some e => .error e
  | none =>
    .ok ([(payload.repo_name ++ "/" ++ payload.sha,
            { state with status := "preparing" })],
          notifyResults.length)

/-! ## Master task `wait_for_hosts` (src/sacar/tasks.py)

The wait loop consumes the stream produced by `Client.wait_recursive`; we
model the observed stream as a finite list of iterations, each carrying the
decoded slave states and the wall-clock time `datetime.datetime.now()`
observed in that iteration's deadline check. -/

/-- One wake-up of the wait loop: the slave states decoded from the
recursive read, and the current wall-clock time (seconds). -/
structure WaitIteration where
  states : List SlaveVersionState
  now : Nat
deriving DecidableEq, Repr

/-- The in-progress summary `f"Preparing hosts ({num_ready} of {num_slaves}
ready)"`. -/
def progressSummary (num_ready num_slaves : Nat) : String :=
  "Preparing hosts (" ++ toString num_ready ++ " of " ++ toString num_slaves
    ++ " ready)"

/-- The body of the `async for` loop in `tasks.wait_for_hosts`: on each
iteration, count the slave states with `done` set, post an in-progress
summary, then break when `num_ready >= num_slaves`, or set `timed_out` and
break when `now - started_at > timeout`.  Returns the posted in-progress
summaries, the `timed_out` flag, and the final `num_ready` (which persists
from the previous iteration when the stream ends). -/
def waitLoop (num_slaves timeout started_at num_ready : Nat) :
    List WaitIteration → List String × Bool × Nat
  | [] => ([], false, num_ready)
  | it :: rest =>
    let nr := (it.states.filter (fun s => s.done)).length
    if nr ≥ num_slaves then
      ([progressSummary nr num_slaves], false, nr)
    else if it.now - started_at > timeout then
      ([progressSummary nr num_slaves], true, nr)
    else
      (progressSummary nr num_slaves :: (waitLoop num_slaves timeout started_at nr rest).1,
        (waitLoop num_slaves timeout started_at nr rest).2.1,
        (waitLoop num_slaves timeout started_at nr rest).2.2)

/-- Source `tasks.wait_for_hosts`: runs the wait loop, then posts exactly one
completed check run: conclusion `FAILURE` with summary "Timed out while
preparing hosts" and text `f"Timed out after {timeout} seconds, {num_ready}
of {num_slaves} hosts ready"` when the loop timed out, else conclusion
`SUCCESS` with summary "All hosts ready" and text
`"Finished preparing all \x7bnum_slaves\x7d hosts"` (the source string at
src/sacar/tasks.py:138 has no `f` prefix, so the placeholder is literal).
Returns all check-run reports posted, in order. -/
def wait_for_hosts (num_slaves timeout started_at : Nat)
    (iterations : List WaitIteration) : List CheckRunReport :=
  let run := waitLoop num_slaves timeout started_at 0 iterations
  (run.1.map (fun s =>
    { status := CheckStatus.in_progress, summary := s : CheckRunReport })) ++
  [{ status := CheckStatus.completed,
     summary :=
       if run.2.1 then "Timed out while preparing hosts" else "All hosts ready",
     text := some (
       if run.2.1 then
         "Timed out after " ++ toString timeout ++ " seconds, "
           ++ toString run.2.2 ++ " of " ++ toString num_slaves ++ " hosts ready"
       else
         "Finished preparing all \x7bnum_slaves\x7d hosts"),
     conclusion := some (
       if run.2.1 then CheckConclusion.failure else CheckConclusion.success) }]

/-! ## Handler `tarball_ready_event` (src/sacar/handlers.py) -/

/-- How the handler's control flow ends: an HTTP response with a status
code, or a re-raised exception. -/
inductive HandlerOutcome where
  | responded (statusCode : Nat)
  | raised (e : String)
deriving DecidableEq, Repr

/-- The externally visible effects of one `tarball_ready_event` invocation:
the check-run reports posted, the `VersionState` writes to Consul, and how
the handler ended. -/
structure HandlerRun where
  reports : List CheckRunReport
  statePuts : List (String × VersionState)
  outcome : HandlerOutcome
deriving DecidableEq, Repr

/-- Source `handlers.tarball_ready_event` (after reading the stored
`VersionState`): when the event's branch differs from the deploy branch,
post one completed check run with conclusion `NEUTRAL` and respond 200;
otherwise run `prepare_hosts` — on success post one in-progress check run
and respond 202 (scheduling `wait_for_hosts` in the background), and on any
exception post one completed check run with conclusion `FAILURE` and
re-raise. -/
def tarball_ready_event (payload : TarballReadyEvent) (state : VersionState)
    (deployBranch : String) (notifyResults : List (Except String Unit)) :
    HandlerRun :=
  if payload.branch ≠ deployBranch then
    { reports := [{ status := CheckStatus.completed, summary := "Preparing hosts",
                    text := some "Not preparing commit not on master",
                    conclusion := some CheckConclusion.neutral }],
      statePuts := [],
      outcome := .responded 200 }
  else
    match prepare_hosts payload state notifyResults with
    | .ok (puts, _numSlaves) =>
      { reports := [{ status := CheckStatus.in_progress,
                      summary := "Preparing hosts" }],
        statePuts := puts,
        outcome := .responded 202 }
    | .error e =>
      { reports := [{ status := CheckStatus.completed,
                      summary := "Error while preparing version",
                      conclusion := some CheckConclusion.failure }],
        statePuts := [],
        outcome := .raised e }

/-! ## Theorems -/

/-- C1: for every `prepare_host` invocation, whether `_prepare` returns a
`(success, message)` pair or raises, exactly one final `SlaveVersionState`
with `done = true` is written under `repo_name/sha/hostname`; an exception
is converted to `success = false` with the exception's message, and no
terminal path skips the final `done = true` write. -/
theorem prepare_host_single_done_write (repo sha host : String) (e : String)
    (s : Bool) (m : String) :
    (prepare_host repo sha host (Except.error e) =
      [⟨repo ++ "/" ++ sha ++ "/" ++ host, { done := false }⟩,
       ⟨repo ++ "/" ++ sha ++ "/" ++ host,
         { done := true, success := some false, message := some e }⟩]) ∧
    (prepare_host repo sha host (Except.ok (s, m)) =
      [⟨repo ++ "/" ++ sha ++ "/" ++ host, { done := false }⟩,
       ⟨repo ++ "/" ++ sha ++ "/" ++ host,
         { done := true, success := some s, message := some m }⟩]) ∧
    (∀ res : Except String (Bool × String),
      ((prepare_host repo sha host res).filter
        (fun w => w.value.done)).length = 1 ∧
      (prepare_host repo sha host res).getLast?.map
        (fun w => w.value.done) = some true) := by
  refine ⟨rfl, rfl, fun res => ?_⟩
  rcases res with e' | ⟨s', m'⟩ <;> simp [prepare_host]

/-- Helper: the first request of a nonempty watch run is issued with the
current index. -/
theorem waitFrom_requests_first {T : Type} (idx : Nat) (r : WatchResponse T)
    (rest : List (WatchResponse T)) :
    (waitFrom idx (r :: rest)).requests[0]? = some idx := by
  cases r with
  | ok i v => simp [waitFrom]
  | httpError s c => by_cases hs : s = 404 <;> simp [waitFrom, hs]

/-- Helper: whenever the store answers request `k` with a 404 carrying
revision `R`, the next request (if the run issues one) uses `fromIndex = R`. -/
theorem waitFrom_requests_after_not_found {T : Type} :
    ∀ (rs : List (WatchResponse T)) (idx k R : Nat),
      rs[k]? = some (WatchResponse.httpError 404 R) →
      ((waitFrom idx rs).requests[k + 1]? = some R ∨
        (waitFrom idx rs).requests.length ≤ k + 1) := by
  intro rs
  induction rs with
  | nil => intro idx k R h; simp at h
  | cons r rest ih =>
    intro idx k R h
    cases k with
    | zero =>
      rw [List.getElem?_cons_zero] at h
      injection h with h'
      subst h'
      cases rest with
      | nil => right; simp [waitFrom]
      | cons r2 rest2 =>
        left
        show (waitFrom idx (WatchResponse.httpError 404 R :: r2 :: rest2)).requests[1]? = some R
        simp only [waitFrom, if_pos rfl]
        simpa using waitFrom_requests_first R r2 rest2
    | succ k' =>
      rw [List.getElem?_cons_succ] at h
      cases r with
      | ok i v =>
        rcases ih i k' R h with h1 | h1
        · left; simpa [waitFrom] using h1
        · right; simp only [waitFrom]; simpa using Nat.succ_le_succ h1
      | httpError s c =>
        by_cases hs : s = 404
        · subst hs
          rcases ih c k' R h with h1 | h1
          · left; simpa [waitFrom] using h1
          · right; simp only [waitFrom, if_pos rfl]; simpa using Nat.succ_le_succ h1
        · right; simp [waitFrom, hs]

/-- C2: a watch (single-key or recursive) that receives a "not found" (404)
response carrying revision `R` does not surface the error: it yields nothing
for it and re-issues the watch with `fromIndex = R`; any other HTTP error
propagates and aborts the run. -/
theorem consul_watch_not_found_resume {T : Type} (idx status R k : Nat)
    (rest rs : List (WatchResponse T)) (restRec : List (WatchResponse (List T)))
    (hstatus : status ≠ 404)
    (hk : rs[k]? = some (WatchResponse.httpError 404 R)) :
    (waitFrom idx (WatchResponse.httpError 404 R :: rest) =
      ⟨idx :: (waitFrom R rest).requests, (waitFrom R rest).yields,
        (waitFrom R rest).raised⟩) ∧
    (Client.wait (WatchResponse.httpError 404 R :: rest) =
      ⟨1 :: (waitFrom R rest).requests, (waitFrom R rest).yields,
        (waitFrom R rest).raised⟩) ∧
    (Client.wait_recursive (WatchResponse.httpError 404 R :: restRec) =
      ⟨1 :: (waitFrom R restRec).requests, (waitFrom R restRec).yields,
        (waitFrom R restRec).raised⟩) ∧
    (waitFrom idx (WatchResponse.httpError status R :: rest) =
      ⟨[idx], [], some status⟩) ∧
    ((waitFrom idx rs).requests[k + 1]? = some R ∨
      (waitFrom idx rs).requests.length ≤ k + 1) := by
  refine ⟨by simp [waitFrom], by simp [Client.wait, waitFrom],
    by simp [Client.wait_recursive, waitFrom], by simp [waitFrom, hstatus],
    waitFrom_requests_after_not_found rs idx k R hk⟩

/-- Witness for C2 at a concrete run. -/
theorem consul_watch_not_found_resume_witness :
    (500 : Nat) ≠ 404 ∧
    ([WatchResponse.httpError 404 7,
      WatchResponse.ok 9 (42 : Nat)][0]? = some (WatchResponse.httpError 404 7)) ∧
    ((waitFrom 5 [WatchResponse.httpError 404 7, WatchResponse.ok 9 (42 : Nat)]).requests[0 + 1]? = some 7 ∨
      (waitFrom 5 [WatchResponse.httpError 404 7, WatchResponse.ok 9 (42 : Nat)]).requests.length ≤ 0 + 1) :=
  ⟨by decide, by decide,
    (consul_watch_not_found_resume 5 500 7 0 [WatchResponse.ok 9 (42 : Nat)]
      [WatchResponse.httpError 404 7, WatchResponse.ok 9 (42 : Nat)]
      [] (by decide) (by decide)).2.2.2.2⟩

/-- C9 counterexample: a cached entry whose token is the empty string is
treated as absent by `gcp_get_auth_token` (Python truthiness of the token in
`if token and expires_at and ...`), so a fresh token is requested even
though the cached expiry (100) is more than 30 seconds after the current
time (0); "returns the cached token exactly when the expiry is more than 30
seconds after the current time" therefore fails on this cached entry. -/
theorem gcp_token_empty_cached_token_refreshes :
    (gcp_get_auth_token (some ("", 100)) 0 ("fresh", 200)).requested = true ∧
    (gcp_get_auth_token (some ("", 100)) 0 ("fresh", 200)).token = "fresh" ∧
    100 > 0 + 30 := by
  decide

/-- C9 (amended): for every cached entry with a non-empty token, both the
code-hosting and blob-storage caches return the cached token without a
refresh exactly when the expiry is more than 30 seconds after the current
time, and otherwise request a fresh token, store the new pair and return the
fresh token; a token expiring 20 seconds in the future triggers a refresh
and one expiring 40 seconds in the future is reused. -/
theorem token_cache_expiry_boundary (t : String) (e now : Nat)
    (fresh : String × Nat) (ht : t ≠ "") :
    (e > now + 30 →
      gcp_get_auth_token (some (t, e)) now fresh = ⟨t, some (t, e), false⟩ ∧
      github_get_auth_token (some (t, e)) now fresh = ⟨t, some (t, e), false⟩) ∧
    (¬ e > now + 30 →
      gcp_get_auth_token (some (t, e)) now fresh = ⟨fresh.1, some fresh, true⟩ ∧
      github_get_auth_token (some (t, e)) now fresh = ⟨fresh.1, some fresh, true⟩) ∧
    (gcp_get_auth_token (some (t, now + 20)) now fresh).requested = true ∧
    (github_get_auth_token (some (t, now + 20)) now fresh).requested = true ∧
    (gcp_get_auth_token (some (t, now + 40)) now fresh).requested = false ∧
    (github_get_auth_token (some (t, now + 40)) now fresh).requested = false := by
  have h20 : ¬ (now + 20 > now + 30) := by omega
  have h40 : now + 40 > now + 30 := by omega
  have h40z : now + 40 ≠ 0 := by omega
  refine ⟨?_, ?_, ?_, ?_, ?_, ?_⟩
  · intro h
    have h0 : e ≠ 0 := by omega
    exact ⟨by simp [gcp_get_auth_token, ht, h0, h],
      by simp [github_get_auth_token, ht, h]⟩
  · intro h
    exact ⟨by simp [gcp_get_auth_token, h], by simp [github_get_auth_token, h]⟩
  · simp [gcp_get_auth_token, h20]
  · simp [github_get_auth_token, h20]
  · simp [gcp_get_auth_token, ht, h40, h40z]
  · simp [github_get_auth_token, ht, h40]

/-- Witness for C9 (amended) at a concrete non-empty cached token. -/
theorem token_cache_expiry_boundary_witness :
    ("tok" : String) ≠ "" ∧
    (((100 : Nat) > 0 + 30 →
      gcp_get_auth_token (some ("tok", 100)) 0 ("f", 500) =
        ⟨"tok", some ("tok", 100), false⟩ ∧
      github_get_auth_token (some ("tok", 100)) 0 ("f", 500) =
        ⟨"tok", some ("tok", 100), false⟩) ∧
    (¬ (100 : Nat) > 0 + 30 →
      gcp_get_auth_token (some ("tok", 100)) 0 ("f", 500) =
        ⟨("f", (500 : Nat)).1, some ("f", 500), true⟩ ∧
      github_get_auth_token (some ("tok", 100)) 0 ("f", 500) =
        ⟨("f", (500 : Nat)).1, some ("f", 500), true⟩) ∧
    (gcp_get_auth_token (some ("tok", 0 + 20)) 0 ("f", 500)).requested = true ∧
    (github_get_auth_token (some ("tok", 0 + 20)) 0 ("f", 500)).requested = true ∧
    (gcp_get_auth_token (some ("tok", 0 + 40)) 0 ("f", 500)).requested = false ∧
    (github_get_auth_token (some ("tok", 0 + 40)) 0 ("f", 500)).requested = false) :=
  ⟨by decide, token_cache_expiry_boundary "tok" 100 0 ("f", 500) (by decide)⟩

/-- C10: an artifact-ready event whose branch (the ref with a leading
`refs/heads/` prefix stripped when present) differs from the configured
deploy branch makes the handler post exactly one completed check run with
conclusion `neutral` and return, with no slave fan-out, no `VersionState`
write, and no stored state ever set to `"preparing"`. -/
theorem tarball_wrong_branch_neutral (payload : TarballReadyEvent)
    (state : VersionState) (deployBranch : String)
    (notifyResults : List (Except String Unit))
    (h : payload.branch ≠ deployBranch) :
    tarball_ready_event payload state deployBranch notifyResults =
      { reports := [{ status := CheckStatus.completed,
                      summary := "Preparing hosts",
                      text := some "Not preparing commit not on master",
                      conclusion := some CheckConclusion.neutral }],
        statePuts := [],
        outcome := .responded 200 } ∧
    (∀ p ∈ (tarball_ready_event payload state deployBranch notifyResults).statePuts,
      p.2.status ≠ "preparing") := by
  have heq : tarball_ready_event payload state deployBranch notifyResults =
      { reports := [{ status := CheckStatus.completed,
                      summary := "Preparing hosts",
                      text := some "Not preparing commit not on master",
                      conclusion := some CheckConclusion.neutral }],
        statePuts := [],
        outcome := .responded 200 } := by
    unfold tarball_ready_event
    rw [if_pos h]
  refine ⟨heq, ?_⟩
  rw [heq]
  simp

/-- Witness for C10 at a concrete event on a non-deploy branch. -/
theorem tarball_wrong_branch_neutral_witness :
    (TarballReadyEvent.mk "acme/app" "deadbeef" "refs/heads/dev" "x.tar").branch ≠
      "master" ∧
    (tarball_ready_event
        (TarballReadyEvent.mk "acme/app" "deadbeef" "refs/heads/dev" "x.tar")
        (VersionState.mk 1 2 "waiting-for-tarball" none none) "master" [] =
      { reports := [{ status := CheckStatus.completed,
                      summary := "Preparing hosts",
                      text := some "Not preparing commit not on master",
                      conclusion := some CheckConclusion.neutral }],
        statePuts := [],
        outcome := .responded 200 } ∧
    (∀ p ∈ (tarball_ready_event
        (TarballReadyEvent.mk "acme/app" "deadbeef" "refs/heads/dev" "x.tar")
        (VersionState.mk 1 2 "waiting-for-tarball" none none) "master" []).statePuts,
      p.2.status ≠ "preparing")) :=
  ⟨by decide,
    tarball_wrong_branch_neutral
      (TarballReadyEvent.mk "acme/app" "deadbeef" "refs/heads/dev" "x.tar")
      (VersionState.mk 1 2 "waiting-for-tarball" none none) "master" [] (by decide)⟩

/-- Helper: `asyncio.gather` raises when any notification failed. -/
theorem gatherFirstError_isSome_of_mem {e : String} :
    ∀ {l : List (Except String Unit)}, Except.error e ∈ l →
      ∃ e', gatherFirstError l = some e' := by
  intro l
  induction l with
  | nil => intro h; simp at h
  | cons r rest ih =>
    intro h
    cases r with
    | error e2 => exact ⟨e2, rfl⟩
    | ok u =>
      rcases List.mem_cons.mp h with h1 | h1
      · exact absurd h1 (by simp)
      · simpa [gatherFirstError] using ih h1

/-- C3: if any single slave notification fails, `prepare_hosts` propagates
the exception, never writes a `VersionState` (so the status is never set to
`"preparing"`), and the surrounding handler posts exactly one completed
check run with conclusion `failure` and re-raises. -/
theorem fanout_all_or_nothing (payload : TarballReadyEvent)
    (state : VersionState) (deployBranch : String)
    (notifyResults : List (Except String Unit)) (e : String)
    (hbranch : payload.branch = deployBranch)
    (herr : Except.error e ∈ notifyResults) :
    (∃ e', prepare_hosts payload state notifyResults = Except.error e' ∧
      (tarball_ready_event payload state deployBranch notifyResults).outcome =
        HandlerOutcome.raised e') ∧
    (tarball_ready_event payload state deployBranch notifyResults).statePuts = [] ∧
    (tarball_ready_event payload state deployBranch notifyResults).reports =
      [{ status := CheckStatus.completed,
         summary := "Error while preparing version",
         conclusion := some CheckConclusion.failure }] ∧
    ((tarball_ready_event payload state deployBranch notifyResults).reports.filter
      (fun r => decide (r.status = CheckStatus.completed))).length = 1 := by
  obtain ⟨e', he'⟩ := gatherFirstError_isSome_of_mem herr
  have hp : prepare_hosts payload state notifyResults = Except.error e' := by
    unfold prepare_hosts
    rw [he']
  have hb : ¬ (payload.branch ≠ deployBranch) := by simp [hbranch]
  have ht : tarball_ready_event payload state deployBranch notifyResults =
      { reports := [{ status := CheckStatus.completed,
                      summary := "Error while preparing version",
                      conclusion := some CheckConclusion.failure }],
        statePuts := [],
        outcome := .raised e' } := by
    unfold tarball_ready_event
    rw [if_neg hb, hp]
  refine ⟨⟨e', hp, by rw [ht]⟩, by rw [ht], by rw [ht], by rw [ht]; rfl⟩

/-- Witness for C3: one of two notifications fails. -/
theorem fanout_all_or_nothing_witness :
    (TarballReadyEvent.mk "acme/app" "deadbeef" "refs/heads/master" "x.tar").branch =
      "master" ∧
    Except.error "boom" ∈ ([Except.ok (), Except.error "boom"] :
      List (Except String Unit)) ∧
    ((∃ e', prepare_hosts
        (TarballReadyEvent.mk "acme/app" "deadbeef" "refs/heads/master" "x.tar")
        (VersionState.mk 1 2 "waiting-for-tarball" none none)
        [Except.ok (), Except.error "boom"] = Except.error e' ∧
      (tarball_ready_event
        (TarballReadyEvent.mk "acme/app" "deadbeef" "refs/heads/master" "x.tar")
        (VersionState.mk 1 2 "waiting-for-tarball" none none) "master"
        [Except.ok (), Except.error "boom"]).outcome = HandlerOutcome.raised e') ∧
    (tarball_ready_event
        (TarballReadyEvent.mk "acme/app" "deadbeef" "refs/heads/master" "x.tar")
        (VersionState.mk 1 2 "waiting-for-tarball" none none) "master"
        [Except.ok (), Except.error "boom"]).statePuts = [] ∧
    (tarball_ready_event
        (TarballReadyEvent.mk "acme/app" "deadbeef" "refs/heads/master" "x.tar")
        (VersionState.mk 1 2 "waiting-for-tarball" none none) "master"
        [Except.ok (), Except.error "boom"]).reports =
      [{ status := CheckStatus.completed,
         summary := "Error while preparing version",
         conclusion := some CheckConclusion.failure }] ∧
    ((tarball_ready_event
        (TarballReadyEvent.mk "acme/app" "deadbeef" "refs/heads/master" "x.tar")
        (VersionState.mk 1 2 "waiting-for-tarball" none none) "master"
        [Except.ok (), Except.error "boom"]).reports.filter
      (fun r => decide (r.status = CheckStatus.completed))).length = 1) :=
  ⟨by decide, by simp,
    fanout_all_or_nothing
      (TarballReadyEvent.mk "acme/app" "deadbeef" "refs/heads/master" "x.tar")
      (VersionState.mk 1 2 "waiting-for-tarball" none none) "master"
      [Except.ok (), Except.error "boom"] "boom" (by decide) (by simp)⟩

/-- C6: running the pipeline with the `prepare.done` marker present (and the
lock free, as after a successful first run) unlinks the lock it just
created and returns success with an "already prepared" message, performing
no download, extraction, venv build, dependency install or hook run. -/
theorem prepare_already_prepared_short_circuit (env : PrepareEnv)
    (target : String) :
    («_prepare» env ⟨none, true⟩ target =
      ⟨(true, "\"" ++ target ++ "\" is already prepared"), ⟨none, true⟩,
        [Step.mkdir, Step.createLock, Step.unlinkLock]⟩) ∧
    Step.download ∉ («_prepare» env ⟨none, true⟩ target).steps ∧
    Step.extract ∉ («_prepare» env ⟨none, true⟩ target).steps ∧
    Step.createVenv ∉ («_prepare» env ⟨none, true⟩ target).steps ∧
    Step.installDeps ∉ («_prepare» env ⟨none, true⟩ target).steps ∧
    Step.runHook ∉ («_prepare» env ⟨none, true⟩ target).steps := by
  have heq : «_prepare» env ⟨none, true⟩ target =
      ⟨(true, "\"" ++ target ++ "\" is already prepared"), ⟨none, true⟩,
        [Step.mkdir, Step.createLock, Step.unlinkLock]⟩ := rfl
  refine ⟨heq, ?_, ?_, ?_, ?_, ?_⟩ <;> rw [heq] <;> simp

/-- C7: lock acquisition is an atomic fail-if-exists creation of the lock
file with the process id as content; with the lock already held the
pipeline immediately returns "already preparing" performing no further
step, and of two acquisitions from a lock-free state exactly the first
succeeds. -/
theorem lock_acquisition_exclusive (env : PrepareEnv) (target pid c1 c2 : String)
    (fs fs2 : FS) (hpid : fs.lock = some pid) (hfree : fs2.lock = none) :
    («_prepare» env fs target =
      ⟨(false, "Someone is already preparing \"" ++ target ++ "\""), fs,
        [Step.mkdir]⟩) ∧
    (create_lock_file fs2 c1 = (true, { fs2 with lock := some c1 })) ∧
    (create_lock_file (create_lock_file fs2 c1).2 c2 =
      (false, { fs2 with lock := some c1 })) ∧
    ((create_lock_file fs2 c1).1 = true ∧
      (create_lock_file (create_lock_file fs2 c1).2 c2).1 = false) := by
  have hb : create_lock_file fs2 c1 = (true, { fs2 with lock := some c1 }) := by
    unfold create_lock_file
    rw [hfree]
  have hc : create_lock_file (create_lock_file fs2 c1).2 c2 =
      (false, { fs2 with lock := some c1 }) := by
    rw [hb]
    rfl
  refine ⟨?_, hb, hc, by rw [hb], by rw [hc]⟩
  have ha : create_lock_file fs env.pid = (false, fs) := by
    unfold create_lock_file
    rw [hpid]
  unfold «_prepare»
  rw [ha]
  rfl

/-- Witness for C7 at concrete filesystem states. -/
theorem lock_acquisition_exclusive_witness :
    (FS.mk (some "123") false).lock = some "123" ∧
    (FS.mk none false).lock = none ∧
    ((«_prepare» (PrepareEnv.mk "777" true true true "3.7" true true false true)
        (FS.mk (some "123") false) "t" =
      ⟨(false, "Someone is already preparing \"" ++ "t" ++ "\""),
        FS.mk (some "123") false, [Step.mkdir]⟩) ∧
    (create_lock_file (FS.mk none false) "1" =
      (true, { FS.mk none false with lock := some "1" })) ∧
    (create_lock_file (create_lock_file (FS.mk none false) "1").2 "2" =
      (false, { FS.mk none false with lock := some "1" })) ∧
    ((create_lock_file (FS.mk none false) "1").1 = true ∧
      (create_lock_file (create_lock_file (FS.mk none false) "1").2 "2").1 =
        false)) :=
  ⟨rfl, rfl,
    lock_acquisition_exclusive
      (PrepareEnv.mk "777" true true true "3.7" true true false true) "t" "123"
      "1" "2" (FS.mk (some "123") false) (FS.mk none false) rfl rfl⟩

/-- C8: after lock acquisition, the download-failure path unlinks the lock
before returning; extraction failure and every later failing step (missing
`python-version`, unsupported version, venv failure, dependency-install
failure, hook failure) return failure with the lock (containing the pid)
left in place; and the lock ends up removed exactly on the
already-prepared, download-failure and full-success paths. -/
theorem prepare_lock_frame (pid pvc target : String) (ex pv vv io he ho : Bool)
    (hpy : «_get_python_path» pvc = none) :
    ((«_prepare» (PrepareEnv.mk pid false ex pv pvc vv io he ho)
        ⟨none, false⟩ target).result = (false, "Failed to download tar") ∧
      («_prepare» (PrepareEnv.mk pid false ex pv pvc vv io he ho)
        ⟨none, false⟩ target).fs.lock = none) ∧
    ((«_prepare» (PrepareEnv.mk pid true false pv pvc vv io he ho)
        ⟨none, false⟩ target).result = (false, "Failed to extract tar") ∧
      («_prepare» (PrepareEnv.mk pid true false pv pvc vv io he ho)
        ⟨none, false⟩ target).fs.lock = some pid) ∧
    ((«_prepare» (PrepareEnv.mk pid true true false pvc vv io he ho)
        ⟨none, false⟩ target).result =
          (false, "Missing python-version from tarball") ∧
      («_prepare» (PrepareEnv.mk pid true true false pvc vv io he ho)
        ⟨none, false⟩ target).fs.lock = some pid) ∧
    ((«_prepare» (PrepareEnv.mk pid true true true pvc vv io he ho)
        ⟨none, false⟩ target).result = (false, "Unsupported python version") ∧
      («_prepare» (PrepareEnv.mk pid true true true pvc vv io he ho)
        ⟨none, false⟩ target).fs.lock = some pid) ∧
    ((«_prepare» (PrepareEnv.mk pid true true true "3.7" false io he ho)
        ⟨none, false⟩ target).result = (false, "Failed to create venv") ∧
      («_prepare» (PrepareEnv.mk pid true true true "3.7" false io he ho)
        ⟨none, false⟩ target).fs.lock = some pid) ∧
    ((«_prepare» (PrepareEnv.mk pid true true true "3.7" true false he ho)
        ⟨none, false⟩ target).result =
          (false, "Failed to install dependencies") ∧
      («_prepare» (PrepareEnv.mk pid true true true "3.7" true false he ho)
        ⟨none, false⟩ target).fs.lock = some pid) ∧
    ((«_prepare» (PrepareEnv.mk pid true true true "3.7" true true true false)
        ⟨none, false⟩ target).result =
          (false, "Failed to run bootstrap script") ∧
      («_prepare» (PrepareEnv.mk pid true true true "3.7" true true true false)
        ⟨none, false⟩ target).fs.lock = some pid) ∧
    (∀ (env : PrepareEnv) (dn : Bool),
      ((«_prepare» env ⟨none, dn⟩ target).fs.lock = none ↔
        (dn = true ∨ env.downloadOk = false ∨
          (env.extractOk = true ∧ env.pythonVersionExists = true ∧
            («_get_python_path» env.pythonVersionContent).isSome = true ∧
            env.venvOk = true ∧ env.installOk = true ∧
            (env.hookExists = true → env.hookOk = true))))) := by
  refine ⟨⟨rfl, rfl⟩, ⟨rfl, rfl⟩, ⟨rfl, rfl⟩, ?_, ⟨rfl, rfl⟩, ⟨rfl, rfl⟩,
    ⟨rfl, rfl⟩, ?_⟩
  · constructor <;> simp [«_prepare», create_lock_file, hpy]
  · intro env dn
    obtain ⟨pid2, dl2, ex2, pv2, pvc2, vv2, io2, he2, ho2⟩ := env
    cases hpy2 : «_get_python_path» pvc2 <;>
      cases dn <;> cases dl2 <;> cases ex2 <;> cases pv2 <;> cases vv2 <;>
        cases io2 <;> cases he2 <;> cases ho2 <;>
          simp [«_prepare», create_lock_file, hpy2]

/-- Witness for C8 with an unsupported `python-version` content. -/
theorem prepare_lock_frame_witness :
    «_get_python_path» "2.7" = none ∧
    ((((«_prepare» (PrepareEnv.mk "99" false true true "2.7" true true false true)
        ⟨none, false⟩ "t").result = (false, "Failed to download tar") ∧
      («_prepare» (PrepareEnv.mk "99" false true true "2.7" true true false true)
        ⟨none, false⟩ "t").fs.lock = none)) ∧
    ((«_prepare» (PrepareEnv.mk "99" true false true "2.7" true true false true)
        ⟨none, false⟩ "t").result = (false, "Failed to extract tar") ∧
      («_prepare» (PrepareEnv.mk "99" true false true "2.7" true true false true)
        ⟨none, false⟩ "t").fs.lock = some "99") ∧
    ((«_prepare» (PrepareEnv.mk "99" true true false "2.7" true true false true)
        ⟨none, false⟩ "t").result =
          (false, "Missing python-version from tarball") ∧
      («_prepare» (PrepareEnv.mk "99" true true false "2.7" true true false true)
        ⟨none, false⟩ "t").fs.lock = some "99") ∧
    ((«_prepare» (PrepareEnv.mk "99" true true true "2.7" true true false true)
        ⟨none, false⟩ "t").result = (false, "Unsupported python version") ∧
      («_prepare» (PrepareEnv.mk "99" true true true "2.7" true true false true)
        ⟨none, false⟩ "t").fs.lock = some "99") ∧
    ((«_prepare» (PrepareEnv.mk "99" true true true "3.7" false true false true)
        ⟨none, false⟩ "t").result = (false, "Failed to create venv") ∧
      («_prepare» (PrepareEnv.mk "99" true true true "3.7" false true false true)
        ⟨none, false⟩ "t").fs.lock = some "99") ∧
    ((«_prepare» (PrepareEnv.mk "99" true true true "3.7" true false false true)
        ⟨none, false⟩ "t").result =
          (false, "Failed to install dependencies") ∧
      («_prepare» (PrepareEnv.mk "99" true true true "3.7" true false false true)
        ⟨none, false⟩ "t").fs.lock = some "99") ∧
    ((«_prepare» (PrepareEnv.mk "99" true true true "3.7" true true true false)
        ⟨none, false⟩ "t").result =
          (false, "Failed to run bootstrap script") ∧
      («_prepare» (PrepareEnv.mk "99" true true true "3.7" true true true false)
        ⟨none, false⟩ "t").fs.lock = some "99") ∧
    (∀ (env : PrepareEnv) (dn : Bool),
      ((«_prepare» env ⟨none, dn⟩ "t").fs.lock = none ↔
        (dn = true ∨ env.downloadOk = false ∨
          (env.extractOk = true ∧ env.pythonVersionExists = true ∧
            («_get_python_path» env.pythonVersionContent).isSome = true ∧
            env.venvOk = true ∧ env.installOk = true ∧
            (env.hookExists = true → env.hookOk = true)))))) :=
  ⟨by decide,
    prepare_lock_frame "99" "2.7" "t" true true true true false true (by decide)⟩

/-- Helper: when the wait loop sets `timed_out`, the final `num_ready` is
the ready count of the iteration that broke, that count is below the slave
total, and that iteration's wall clock exceeded the deadline. -/
theorem waitLoop_timedOut_spec (ns t st : Nat) :
    ∀ (its : List WaitIteration) (nr0 : Nat),
      (waitLoop ns t st nr0 its).2.1 = true →
      ∃ it ∈ its,
        (waitLoop ns t st nr0 its).2.2 =
          (it.states.filter (fun s => s.done)).length ∧
        (it.states.filter (fun s => s.done)).length < ns ∧
        it.now - st > t := by
  intro its
  induction its with
  | nil => intro nr0 h; simp [waitLoop] at h
  | cons it rest ih =>
    intro nr0 h
    by_cases h1 : (it.states.filter (fun s => s.done)).length ≥ ns
    · exfalso
      simp [waitLoop, h1] at h
    · by_cases h2 : it.now - st > t
      · refine ⟨it, List.mem_cons_self _ _, ?_, by omega, h2⟩
        simp [waitLoop, h1, h2]
      · have h' : (waitLoop ns t st
            ((it.states.filter (fun s => s.done)).length) rest).2.1 = true := by
          simpa [waitLoop, h1, h2] using h
        obtain ⟨it', hmem, ha, hb, hc⟩ := ih _ h'
        refine ⟨it', List.mem_cons_of_mem _ hmem, ?_, hb, hc⟩
        simpa [waitLoop, h1, h2] using ha

/-- C4 (code evaluation): on a timed-out run the single completed report has
conclusion `failure` and its text carries the exact ready and total counts
at the moment of timeout; but on the all-ready run the single completed
report's detail is the literal string "Finished preparing all
\x7bnum_slaves\x7d hosts" (the f-prefix is missing at
src/sacar/tasks.py:138), so the success detail does not contain the host
count. -/
theorem wait_for_hosts_terminal_reports (ns t st : Nat)
    (its : List WaitIteration)
    (htimeout : (waitLoop ns t st 0 its).2.1 = true) :
    (wait_for_hosts ns t st its =
      (waitLoop ns t st 0 its).1.map (fun s =>
        { status := CheckStatus.in_progress, summary := s : CheckRunReport }) ++
      [{ status := CheckStatus.completed,
         summary := "Timed out while preparing hosts",
         text := some ("Timed out after " ++ toString t ++ " seconds, "
           ++ toString (waitLoop ns t st 0 its).2.2 ++ " of " ++ toString ns
           ++ " hosts ready"),
         conclusion := some CheckConclusion.failure }]) ∧
    ((wait_for_hosts ns t st its).filter
      (fun r => decide (r.status = CheckStatus.completed))).length = 1 ∧
    (∃ it ∈ its,
      (waitLoop ns t st 0 its).2.2 =
        (it.states.filter (fun s => s.done)).length ∧
      (it.states.filter (fun s => s.done)).length < ns ∧
      it.now - st > t) ∧
    (wait_for_hosts 1 300 0 [⟨[⟨true, some true, some "ok"⟩], 10⟩] =
      [{ status := CheckStatus.in_progress,
         summary := "Preparing hosts (1 of 1 ready)" },
       { status := CheckStatus.completed,
         summary := "All hosts ready",
         text := some "Finished preparing all \x7bnum_slaves\x7d hosts",
         conclusion := some CheckConclusion.success }]) := by
  have h1 : wait_for_hosts ns t st its =
      (waitLoop ns t st 0 its).1.map (fun s =>
        { status := CheckStatus.in_progress, summary := s : CheckRunReport }) ++
      [{ status := CheckStatus.completed,
         summary := "Timed out while preparing hosts",
         text := some ("Timed out after " ++ toString t ++ " seconds, "
           ++ toString (waitLoop ns t st 0 its).2.2 ++ " of " ++ toString ns
           ++ " hosts ready"),
         conclusion := some CheckConclusion.failure }] := by
    simp [wait_for_hosts, htimeout]
  refine ⟨h1, ?_, waitLoop_timedOut_spec ns t st its 0 htimeout, by decide⟩
  rw [h1]
  simp [List.filter_append, List.filter_map, Function.comp]

/-- Witness for C4 on a run that times out with 1 of 2 hosts ready. -/
theorem wait_for_hosts_terminal_reports_witness :
    (waitLoop 2 10 0 0
      [WaitIteration.mk [SlaveVersionState.mk true none none] 100]).2.1 = true ∧
    ((wait_for_hosts 2 10 0
        [WaitIteration.mk [SlaveVersionState.mk true none none] 100] =
      (waitLoop 2 10 0 0
        [WaitIteration.mk [SlaveVersionState.mk true none none] 100]).1.map
          (fun s =>
            { status := CheckStatus.in_progress, summary := s : CheckRunReport }) ++
      [{ status := CheckStatus.completed,
         summary := "Timed out while preparing hosts",
         text := some ("Timed out after " ++ toString 10 ++ " seconds, "
           ++ toString (waitLoop 2 10 0 0
               [WaitIteration.mk [SlaveVersionState.mk true none none] 100]).2.2
           ++ " of " ++ toString 2 ++ " hosts ready"),
         conclusion := some CheckConclusion.failure }]) ∧
    ((wait_for_hosts 2 10 0
        [WaitIteration.mk [SlaveVersionState.mk true none none] 100]).filter
      (fun r => decide (r.status = CheckStatus.completed))).length = 1 ∧
    (∃ it ∈ [WaitIteration.mk [SlaveVersionState.mk true none none] 100],
      (waitLoop 2 10 0 0
        [WaitIteration.mk [SlaveVersionState.mk true none none] 100]).2.2 =
        (it.states.filter (fun s => s.done)).length ∧
      (it.states.filter (fun s => s.done)).length < 2 ∧
      it.now - 0 > 10) ∧
    (wait_for_hosts 1 300 0 [⟨[⟨true, some true, some "ok"⟩], 10⟩] =
      [{ status := CheckStatus.in_progress,
         summary := "Preparing hosts (1 of 1 ready)" },
       { status := CheckStatus.completed,
         summary := "All hosts ready",
         text := some "Finished preparing all \x7bnum_slaves\x7d hosts",
         conclusion := some CheckConclusion.success }])) :=
  ⟨by decide,
    wait_for_hosts_terminal_reports 2 10 0
      [WaitIteration.mk [SlaveVersionState.mk true none none] 100] (by decide)⟩

/-- C5: the ready count counts exactly the slave states with `done = true`,
irrespective of their `success` field: a single iteration whose states all
have `done = true` and length equal to the slave total exits through the
all-ready path and the completed check run has conclusion `success`, never
`failure` — whatever the `success` fields and the current time are. -/
theorem all_done_counts_as_ready (ns t st now : Nat)
    (states : List SlaveVersionState)
    (hlen : states.length = ns)
    (hdone : ∀ s ∈ states, s.done = true) :
    wait_for_hosts ns t st [WaitIteration.mk states now] =
      [{ status := CheckStatus.in_progress, summary := progressSummary ns ns },
       { status := CheckStatus.completed,
         summary := "All hosts ready",
         text := some "Finished preparing all \x7bnum_slaves\x7d hosts",
         conclusion := some CheckConclusion.success }] ∧
    (states.filter (fun s => s.done)).length = ns := by
  have hf : states.filter (fun s => s.done) = states :=
    List.filter_eq_self.mpr (by simpa using hdone)
  have hnr : (states.filter (fun s => s.done)).length = ns := by
    rw [hf, hlen]
  refine ⟨?_, hnr⟩
  simp [wait_for_hosts, waitLoop, hnr]

/-- Witness for C5: two slaves, both done, both with `success = false`,
observed past the deadline. -/
theorem all_done_counts_as_ready_witness :
    ([SlaveVersionState.mk true (some false) (some "err"),
      SlaveVersionState.mk true (some false) none].length = 2) ∧
    (∀ s ∈ [SlaveVersionState.mk true (some false) (some "err"),
      SlaveVersionState.mk true (some false) none], s.done = true) ∧
    (wait_for_hosts 2 10 0
        [WaitIteration.mk [SlaveVersionState.mk true (some false) (some "err"),
          SlaveVersionState.mk true (some false) none] 100] =
      [{ status := CheckStatus.in_progress, summary := progressSummary 2 2 },
       { status := CheckStatus.completed,
         summary := "All hosts ready",
         text := some "Finished preparing all \x7bnum_slaves\x7d hosts",
         conclusion := some CheckConclusion.success }] ∧
    ([SlaveVersionState.mk true (some false) (some "err"),
      SlaveVersionState.mk true (some false) none].filter
        (fun s => s.done)).length = 2) :=
  ⟨by decide, by decide,
    all_done_counts_as_ready 2 10 0 100
      [SlaveVersionState.mk true (some false) (some "err"),
        SlaveVersionState.mk true (some false) none] (by decide) (by decide)⟩

end Sacar
